import Mathlib

/-!
Verification of the DHT11 temperature/humidity display firmware
(src/src/main.cpp): a three-state polling state machine that samples a
sensor every 2000 ms, detects changes with exact IEEE floating-point
inequality, and redraws a fixed-layout text display only when the redraw
flag is set.

The embedding is shallow: the C++ globals become a `Globals` structure,
one invocation of `loop()` becomes the pure step function `loopStep`,
`float` values become `FloatVal` (a NaN sentinel or an exact rational
payload — the code performs no float arithmetic, only IEEE `!=`
comparisons and `isnan` tests, which this type models exactly), and the
display side effect of `updateDynamicElements` becomes a returned
`RenderedFrame` describing the texts written to the three dynamic
regions. `millis()` is modelled by a true monotonic time `t : Nat`
truncated to 32 bits wherever the code stores or subtracts
`unsigned long` values.
-/

/-- Model of a C++ `float` as used by this program: either the NaN
sentinel returned by a failed DHT11 read, or an exact numeric value.
The program never does arithmetic on these values, only `isnan` tests
and IEEE `!=` comparisons, so a rational payload is an exact model. -/
inductive FloatVal where
  | nan : FloatVal
  | num : ℚ → FloatVal
  deriving DecidableEq

/-- C `isnan` on the float model. -/
def FloatVal.isnan : FloatVal → Bool
  | .nan => true
  | .num _ => false

/-- IEEE-754 `!=` on the float model: any comparison involving NaN is
unordered, so `!=` yields `true` whenever either operand is NaN
(including NaN vs NaN); on numeric values it is exact inequality. -/
def FloatVal.fneq : FloatVal → FloatVal → Bool
  | .nan, _ => true
  | _, .nan => true
  | .num a, .num b => decide (a ≠ b)

/-- The `State` enum of main.cpp (lines 60-64). -/
inductive MachineState where
  | READ_SENSOR
  | UPDATE_DISPLAY
  | WAIT
  deriving DecidableEq

/-- `sensorReadInterval` (main.cpp line 69): read the sensor every 2000 ms. -/
def sensorReadInterval : Nat := 2000

/-- Modulus of the 32-bit `unsigned long` used for millisecond timing. -/
def UINT32_MOD : Nat := 4294967296

/-- Unsigned 32-bit subtraction: the value of `a - b` computed on
`unsigned long` operands, i.e. the difference modulo 2^32. -/
def usub32 (a b : Nat) : Nat :=
  (a % UINT32_MOD + UINT32_MOD - b % UINT32_MOD) % UINT32_MOD

/-- The global mutable state of main.cpp (lines 67-75). -/
structure Globals where
  currentState : MachineState
  previousMillis : Nat
  temperature : FloatVal
  humidity : FloatVal
  previousTemperature : FloatVal
  previousHumidity : FloatVal
  redrawRequired : Bool
  sensorConnected : Bool
  deriving DecidableEq

/-- The initial values of the globals (main.cpp lines 67-75). -/
def initGlobals : Globals :=
  { currentState := .READ_SENSOR
  , previousMillis := 0
  , temperature := .num 0
  , humidity := .num 0
  , previousTemperature := .num 0
  , previousHumidity := .num 0
  , redrawRequired := true
  , sensorConnected := true }

/-- The global state right after `setup()` returns (main.cpp lines
139-155): `setup` only initialises the display and sensor hardware,
draws the static labels, and re-asserts `redrawRequired = true`,
which the initialiser already set. -/
def afterSetup : Globals :=
  { initGlobals with redrawRequired := true }

/-- One sampled sensor result: the pair returned by
`dht11.readTemperature()` and `dht11.readHumidity()` in a single
READ_SENSOR step. NaN in either field signals a failed read. -/
structure SensorReading where
  temp : FloatVal
  hum : FloatVal
  deriving DecidableEq

/-- The text written to the temperature or humidity value region by
`updateDynamicElements`: the placeholder `"N/A"` when the sensor is
disconnected, or the printed numeric value (`String(v) + " C"` resp.
`String(v) + " %"`) when connected. -/
inductive FieldText where
  | na : FieldText
  | value : FloatVal → FieldText
  deriving DecidableEq

/-- One invocation of `updateDynamicElements` (main.cpp lines 105-131)
as observable output: the status line and the two value regions it
writes (each region is first blanked, then overwritten). -/
structure RenderedFrame where
  status : String
  tempField : FieldText
  humField : FieldText
  deriving DecidableEq

/-- `updateDynamicElements` (main.cpp lines 105-131): renders
"CONNECTED"/"DISCONNECTED" from `sensorConnected`, and either the
numeric values or the "N/A" placeholders for both fields. -/
def updateDynamicElements (g : Globals) : RenderedFrame :=
  { status := if g.sensorConnected then "CONNECTED" else "DISCONNECTED"
  , tempField := if g.sensorConnected then .value g.temperature else .na
  , humField := if g.sensorConnected then .value g.humidity else .na }

/-- One invocation of `loop()` (main.cpp lines 158-211) at true
monotonic time `t` milliseconds, with `r` the values the DHT11 would
return if read this tick. `currentMillis = millis()` is `t`
truncated to 32 bits. Returns the new global state and
`some frame` exactly when `updateDynamicElements` was invoked. -/
def loopStep (g : Globals) (t : Nat) (r : SensorReading) :
    Globals × Option RenderedFrame :=
  match g.currentState with
  | .READ_SENSOR =>
      let temperature := r.temp
      let humidity := r.hum
      let sensorConnected : Bool := !(temperature.isnan || humidity.isnan)
      let g1 := { g with temperature := temperature
                       , humidity := humidity
                       , sensorConnected := sensorConnected }
      let g2 :=
        if temperature.fneq g.previousTemperature
            || humidity.fneq g.previousHumidity
            || !sensorConnected then
          { g1 with redrawRequired := true
                  , previousTemperature := temperature
                  , previousHumidity := humidity }
        else g1
      ({ g2 with currentState := .UPDATE_DISPLAY }, none)
  | .UPDATE_DISPLAY =>
      let out : Globals × Option RenderedFrame :=
        if g.redrawRequired then
          ({ g with redrawRequired := false }, some (updateDynamicElements g))
        else (g, none)
      ({ out.1 with currentState := .WAIT
                  , previousMillis := t % UINT32_MOD }, out.2)
  | .WAIT =>
      if usub32 t g.previousMillis ≥ sensorReadInterval then
        ({ g with currentState := .READ_SENSOR }, none)
      else (g, none)

/-- One full sampling cycle starting in READ_SENSOR: the READ_SENSOR
tick, the UPDATE_DISPLAY tick (both at time `t`), and one WAIT tick at
time `t + 2000` at which the 2000 ms interval has just elapsed, so the
machine is back in READ_SENSOR. Returns the resulting state and the
display update (if any) performed by the UPDATE_DISPLAY tick. -/
def fullCycle (g : Globals) (r : SensorReading) (t : Nat) :
    Globals × Option RenderedFrame :=
  let a := loopStep g t r
  let b := loopStep a.1 t r
  let c := loopStep b.1 (t + 2000) r
  (c.1, b.2)

/-- The trace of global states produced by ticking `loop()` forever:
`runStates g times reads k` is the state after `k` ticks, where tick
`k` happens at time `times k` with sensor values `reads k`. -/
def runStates (g : Globals) (times : Nat → Nat) (reads : Nat → SensorReading) :
    Nat → Globals
  | 0 => g
  | k + 1 => (loopStep (runStates g times reads k) (times k) (reads k)).1

/-! ### Arithmetic lemmas about 32-bit unsigned subtraction -/

/-- Reducing the subtrahend modulo 2^32 first does not change the
unsigned difference. -/
lemma usub32_mod_right (a b : Nat) : usub32 a (b % UINT32_MOD) = usub32 a b := by
  unfold usub32 UINT32_MOD
  omega

/-- Unsigned 32-bit subtraction recovers a true elapsed duration shorter
than 2^32 ms, for every starting time `t` (wraparound included). -/
lemma usub32_elapsed (t d : Nat) (hd : d < UINT32_MOD) :
    usub32 (t + d) t = d := by
  unfold usub32
  unfold UINT32_MOD at hd ⊢
  omega

/-- Unsigned 32-bit subtraction of true (unwrapped) times equals the
true difference whenever that difference is nonnegative and below 2^32. -/
lemma usub32_exact (a b : Nat) (h1 : b ≤ a) (h2 : a - b < UINT32_MOD) :
    usub32 a b = a - b := by
  unfold usub32
  unfold UINT32_MOD at h2 ⊢
  omega

/-! ### Characterization of the three branches of `loop()` -/

/-- The READ_SENSOR branch: store the reading, set `sensorConnected`
from the NaN test, and, when either value compares `!=` against its
stored predecessor or the sensor is disconnected, set the redraw flag
and overwrite the stored previous values; always move to UPDATE_DISPLAY
and draw nothing. -/
lemma loopStep_read (g : Globals) (t : Nat) (r : SensorReading)
    (h : g.currentState = .READ_SENSOR) :
    loopStep g t r =
      (if r.temp.fneq g.previousTemperature || r.hum.fneq g.previousHumidity
          || (r.temp.isnan || r.hum.isnan) then
        { g with currentState := .UPDATE_DISPLAY
               , temperature := r.temp, humidity := r.hum
               , sensorConnected := !(r.temp.isnan || r.hum.isnan)
               , redrawRequired := true
               , previousTemperature := r.temp, previousHumidity := r.hum }
      else
        { g with currentState := .UPDATE_DISPLAY
               , temperature := r.temp, humidity := r.hum
               , sensorConnected := !(r.temp.isnan || r.hum.isnan) }, none) := by
  simp only [loopStep, h, Bool.not_not]
  by_cases hc : (r.temp.fneq g.previousTemperature || r.hum.fneq g.previousHumidity
      || (r.temp.isnan || r.hum.isnan)) = true <;> simp [hc]

/-- The UPDATE_DISPLAY branch: render exactly when the redraw flag is
set, clear the flag, record the current time (truncated to 32 bits)
as the wait-start marker, and move to WAIT. -/
lemma loopStep_update (g : Globals) (t : Nat) (r : SensorReading)
    (h : g.currentState = .UPDATE_DISPLAY) :
    loopStep g t r =
      ({ g with currentState := .WAIT, previousMillis := t % UINT32_MOD
              , redrawRequired := false },
       if g.redrawRequired then some (updateDynamicElements g) else none) := by
  by_cases hr : g.redrawRequired <;> simp [loopStep, h, hr]

/-- The WAIT branch: move back to READ_SENSOR exactly when the unsigned
32-bit difference between the current time and the wait-start marker has
reached the 2000 ms interval; no other field changes, nothing is drawn. -/
lemma loopStep_wait (g : Globals) (t : Nat) (r : SensorReading)
    (h : g.currentState = .WAIT) :
    loopStep g t r =
      (if usub32 t g.previousMillis ≥ sensorReadInterval
       then { g with currentState := .READ_SENSOR } else g, none) := by
  by_cases hw : usub32 t g.previousMillis ≥ sensorReadInterval <;>
    simp [loopStep, h, hw]

/-- A full READ_SENSOR / UPDATE_DISPLAY / WAIT cycle in one equation.
The resulting state is back in READ_SENSOR with the reading stored, the
stored previous values overwritten exactly when the change condition
fired, the redraw flag cleared, and the wait marker set; a frame is
rendered exactly when the flag was pending or the change condition
fired, and it shows the placeholders exactly when the reading was
invalid. -/
lemma fullCycle_read (g : Globals) (r : SensorReading) (t : Nat)
    (h : g.currentState = .READ_SENSOR) :
    fullCycle g r t =
      ({ currentState := .READ_SENSOR
       , previousMillis := t % UINT32_MOD
       , temperature := r.temp
       , humidity := r.hum
       , previousTemperature :=
           if r.temp.fneq g.previousTemperature || r.hum.fneq g.previousHumidity
               || (r.temp.isnan || r.hum.isnan) then r.temp
           else g.previousTemperature
       , previousHumidity :=
           if r.temp.fneq g.previousTemperature || r.hum.fneq g.previousHumidity
               || (r.temp.isnan || r.hum.isnan) then r.hum
           else g.previousHumidity
       , redrawRequired := false
       , sensorConnected := !(r.temp.isnan || r.hum.isnan) },
       if g.redrawRequired
           || (r.temp.fneq g.previousTemperature || r.hum.fneq g.previousHumidity
               || (r.temp.isnan || r.hum.isnan)) then
         some { status := if r.temp.isnan || r.hum.isnan then "DISCONNECTED" else "CONNECTED"
              , tempField := if r.temp.isnan || r.hum.isnan then .na else .value r.temp
              , humField := if r.temp.isnan || r.hum.isnan then .na else .value r.hum }
       else none) := by
  have hguard : usub32 (t + 2000) (t % UINT32_MOD) = 2000 := by
    rw [usub32_mod_right]
    exact usub32_elapsed t 2000 (by unfold UINT32_MOD; omega)
  unfold fullCycle
  rw [loopStep_read g t r h]
  by_cases hc : (r.temp.fneq g.previousTemperature || r.hum.fneq g.previousHumidity
      || (r.temp.isnan || r.hum.isnan)) = true
  · simp only [hc, if_true, if_pos]
    rw [loopStep_update _ t r rfl]
    simp only []
    rw [loopStep_wait _ (t + 2000) r rfl]
    simp [hguard, sensorReadInterval, updateDynamicElements]
    by_cases ht : r.temp.isnan = true <;> by_cases hh : r.hum.isnan = true <;>
      simp [ht, hh]
  · simp only [hc, if_false, if_neg]
    rw [loopStep_update _ t r rfl]
    simp only []
    rw [loopStep_wait _ (t + 2000) r rfl]
    simp [hguard, sensorReadInterval, updateDynamicElements]
    by_cases ht : r.temp.isnan = true <;> by_cases hh : r.hum.isnan = true <;>
      by_cases hr : g.redrawRequired = true <;> simp_all

/-- IEEE `!=` is irreflexive on valid (non-NaN) values. -/
lemma fneq_self_of_valid (x : FloatVal) (h : x.isnan = false) :
    x.fneq x = false := by
  cases x with
  | nan => simp [FloatVal.isnan] at h
  | num a => simp [FloatVal.fneq]

/-- Unfolding equation for one tick of the trace. -/
lemma runStates_succ (g : Globals) (times : Nat → Nat)
    (reads : Nat → SensorReading) (k : Nat) :
    runStates g times reads (k + 1) =
      (loopStep (runStates g times reads k) (times k) (reads k)).1 := rfl

/-- C8: at startup (before the first loop tick) all state holds its
default values: the machine is in READ_SENSOR, the sensor is assumed
connected, an initial redraw is pending, and all four stored readings
and the wait marker are zero. -/
theorem C8_startup_defaults :
    afterSetup.sensorConnected = true ∧
    afterSetup.redrawRequired = true ∧
    afterSetup.temperature = .num 0 ∧
    afterSetup.humidity = .num 0 ∧
    afterSetup.previousTemperature = .num 0 ∧
    afterSetup.previousHumidity = .num 0 ∧
    afterSetup.currentState = .READ_SENSOR :=
  ⟨rfl, rfl, rfl, rfl, rfl, rfl, rfl⟩

/-- C7: a tick in READ_SENSOR always ends in UPDATE_DISPLAY and a tick
in UPDATE_DISPLAY always ends in WAIT, for every reading and every
time; the only conditional transition is WAIT → READ_SENSOR, gated by
the 2000 ms elapsed-time check. -/
theorem C7_unconditional_transitions (g : Globals) (t : Nat)
    (r : SensorReading) :
    (loopStep g t r).1.currentState =
      match g.currentState with
      | .READ_SENSOR => .UPDATE_DISPLAY
      | .UPDATE_DISPLAY => .WAIT
      | .WAIT =>
          if usub32 t g.previousMillis ≥ sensorReadInterval then .READ_SENSOR
          else .WAIT := by
  cases h : g.currentState with
  | READ_SENSOR =>
      rw [loopStep_read g t r h]
      split <;> rfl
  | UPDATE_DISPLAY =>
      rw [loopStep_update g t r h]
  | WAIT =>
      rw [loopStep_wait g t r h]
      by_cases hw : usub32 t g.previousMillis ≥ sensorReadInterval <;>
        simp [hw, h]

/-- C3: a reading with NaN in either channel makes the READ_SENSOR step
set `sensorConnected = false`, and the following UPDATE_DISPLAY step
renders the "N/A" placeholder for both the temperature and the humidity
field (and "DISCONNECTED" as status), regardless of the other channel.
The step functions are total, so the fault is absorbed locally:
the cycle completes and nothing propagates. -/
theorem C3_nan_disconnects_and_renders_placeholders (g : Globals)
    (r : SensorReading) (t : Nat)
    (hstate : g.currentState = .READ_SENSOR)
    (hnan : (r.temp.isnan || r.hum.isnan) = true) :
    (loopStep g t r).1.sensorConnected = false ∧
    (fullCycle g r t).2 =
      some { status := "DISCONNECTED", tempField := .na, humField := .na } := by
  constructor
  · rw [loopStep_read g t r hstate]
    split <;> simp [hnan]
  · rw [fullCycle_read g r t hstate]
    simp [hnan]

/-- Witness for C3: a reading whose temperature is NaN but whose
humidity is a perfectly valid number still disconnects and renders both
placeholders. -/
theorem C3_witness :
    (loopStep afterSetup 0 ⟨.nan, .num 45⟩).1.sensorConnected = false ∧
    (fullCycle afterSetup ⟨.nan, .num 45⟩ 0).2 =
      some { status := "DISCONNECTED", tempField := .na, humField := .na } :=
  C3_nan_disconnects_and_renders_placeholders afterSetup ⟨.nan, .num 45⟩ 0
    rfl rfl

/-- C9: while the sensor is disconnected (the cycle's reading is
invalid), every READ_SENSOR step sets `redrawRequired = true` (the
change condition contains the disjunct `!sensorConnected`), so the
following UPDATE_DISPLAY step redraws the display on every cycle with
the very same placeholder frame, and the machine keeps cycling. -/
theorem C9_disconnected_redraws_every_cycle (g : Globals)
    (r : SensorReading) (t : Nat)
    (hstate : g.currentState = .READ_SENSOR)
    (hnan : (r.temp.isnan || r.hum.isnan) = true) :
    (loopStep g t r).1.redrawRequired = true ∧
    (fullCycle g r t).2 =
      some { status := "DISCONNECTED", tempField := .na, humField := .na } ∧
    (fullCycle g r t).1.currentState = .READ_SENSOR := by
  refine ⟨?_, ?_, ?_⟩
  · rw [loopStep_read g t r hstate]
    split <;> simp_all
  · rw [fullCycle_read g r t hstate]
    simp [hnan]
  · rw [fullCycle_read g r t hstate]

/-- Witness for C9: from a state that is already disconnected (one NaN
cycle after startup), a second identical NaN reading redraws again. -/
theorem C9_witness :
    (loopStep (fullCycle afterSetup ⟨.nan, .nan⟩ 0).1 2000 ⟨.nan, .nan⟩).1.redrawRequired = true ∧
    (fullCycle (fullCycle afterSetup ⟨.nan, .nan⟩ 0).1 ⟨.nan, .nan⟩ 2000).2 =
      some { status := "DISCONNECTED", tempField := .na, humField := .na } ∧
    (fullCycle (fullCycle afterSetup ⟨.nan, .nan⟩ 0).1 ⟨.nan, .nan⟩ 2000).1.currentState = .READ_SENSOR :=
  C9_disconnected_redraws_every_cycle (fullCycle afterSetup ⟨.nan, .nan⟩ 0).1
    ⟨.nan, .nan⟩ 2000 (by decide) rfl

/-- C4: feeding the same valid (non-NaN) reading on two consecutive
READ_SENSOR cycles, when that reading is new (it compares `!=` against
the stored previous values), triggers a display update on the first
cycle and none on the second. -/
theorem C4_same_reading_updates_once (g : Globals) (r : SensorReading)
    (t1 t2 : Nat)
    (hstate : g.currentState = .READ_SENSOR)
    (ht : r.temp.isnan = false) (hh : r.hum.isnan = false)
    (hfirst : (r.temp.fneq g.previousTemperature
        || r.hum.fneq g.previousHumidity) = true) :
    ((fullCycle g r t1).2).isSome = true ∧
    (fullCycle (fullCycle g r t1).1 r t2).2 = none := by
  have hc : (r.temp.fneq g.previousTemperature || r.hum.fneq g.previousHumidity
      || (r.temp.isnan || r.hum.isnan)) = true := by
    simp only [Bool.or_assoc] at hfirst ⊢
    rcases Bool.or_eq_true_iff.mp hfirst with h | h <;> simp [h]
  constructor
  · rw [fullCycle_read g r t1 hstate]
    simp [hc]
  · rw [fullCycle_read g r t1 hstate]
    simp only [hc, if_true, if_pos]
    rw [fullCycle_read _ r t2 rfl]
    simp [fneq_self_of_valid r.temp ht, fneq_self_of_valid r.hum hh, ht, hh]

/-- Witness for C4: the reading (22.5, 45.0) fed twice from the startup
state updates the display once, on the first cycle only. -/
theorem C4_witness :
    ((fullCycle afterSetup ⟨.num 22.5, .num 45⟩ 0).2).isSome = true ∧
    (fullCycle (fullCycle afterSetup ⟨.num 22.5, .num 45⟩ 0).1
      ⟨.num 22.5, .num 45⟩ 2000).2 = none :=
  C4_same_reading_updates_once afterSetup ⟨.num 22.5, .num 45⟩ 0 2000
    rfl rfl rfl
    (by simp [FloatVal.fneq, afterSetup, initGlobals])

/-- C1 counterexample: after one invalid (NaN, NaN) cycle from startup,
the display shows the placeholder frame; a second, identical invalid
reading — the rendered (temperature, humidity, connected) triple is
unchanged — nevertheless invokes `updateDynamicElements` again, and it
emits the very same frame. This refutes the claim's clause that the
display is never redrawn on consecutive identical invalid readings
while disconnected. -/
theorem C1_counterexample :
    (fullCycle afterSetup ⟨.nan, .nan⟩ 0).2 =
      some { status := "DISCONNECTED", tempField := .na, humField := .na } ∧
    (fullCycle (fullCycle afterSetup ⟨.nan, .nan⟩ 0).1 ⟨.nan, .nan⟩ 2000).2 =
      some { status := "DISCONNECTED", tempField := .na, humField := .na } := by
  constructor
  · rw [fullCycle_read afterSetup ⟨.nan, .nan⟩ 0 rfl]
    simp [FloatVal.isnan]
  · rw [fullCycle_read afterSetup ⟨.nan, .nan⟩ 0 rfl]
    simp only [FloatVal.isnan, Bool.or_true, Bool.true_or, if_true, if_pos]
    rw [fullCycle_read _ ⟨.nan, .nan⟩ 2000 rfl]
    simp [FloatVal.isnan, FloatVal.fneq]

/-- C1 amended: in a steady state (no redraw already pending — true
after every UPDATE_DISPLAY step), the
display is redrawn on a cycle if and only if the new temperature
compares `!=` against the stored previous temperature, or the new
humidity compares `!=` against the stored previous humidity (IEEE
comparisons, so any NaN — including NaN against NaN — counts as a
difference), or the reading is invalid (sensor disconnected). In
particular, while the sensor stays disconnected the display is redrawn
on every cycle even though the rendered output is unchanged. -/
theorem C1_amended_redraw_iff (g : Globals) (r : SensorReading) (t : Nat)
    (hstate : g.currentState = .READ_SENSOR)
    (hflag : g.redrawRequired = false) :
    ((fullCycle g r t).2).isSome = true ↔
      (r.temp.fneq g.previousTemperature || r.hum.fneq g.previousHumidity
        || (r.temp.isnan || r.hum.isnan)) = true := by
  rw [fullCycle_read g r t hstate]
  by_cases hc : (r.temp.fneq g.previousTemperature || r.hum.fneq g.previousHumidity
      || (r.temp.isnan || r.hum.isnan)) = true <;> simp [hc, hflag]

/-- Witness for C1 amended: from the steady state reached after one
valid (20.0, 50.0) cycle, feeding the identical reading redraws
nothing: the right-hand side of the equivalence is false and so is the
left. -/
theorem C1_amended_witness :
    ((fullCycle (fullCycle afterSetup ⟨.num 20, .num 50⟩ 0).1
        ⟨.num 20, .num 50⟩ 2000).2).isSome = false := by
  have h := C1_amended_redraw_iff (fullCycle afterSetup ⟨.num 20, .num 50⟩ 0).1
    ⟨.num 20, .num 50⟩ 2000
    (by rw [fullCycle_read afterSetup ⟨.num 20, .num 50⟩ 0 rfl])
    (by rw [fullCycle_read afterSetup ⟨.num 20, .num 50⟩ 0 rfl])
  rw [Bool.eq_false_iff]
  intro hsome
  have hrhs := h.mp hsome
  rw [fullCycle_read afterSetup ⟨.num 20, .num 50⟩ 0 rfl] at hrhs
  simp [FloatVal.fneq, FloatVal.isnan, afterSetup, initGlobals] at hrhs

/-- C10: the WAIT-state elapsed-time test subtracts the stored 32-bit
wait marker from the current 32-bit millisecond count modulo 2^32, so
for true times `p ≤ c` less than 2^32 apart the computed elapsed value
is exactly `c - p`, and the machine leaves WAIT exactly when 2000 ms
have truly elapsed — even when the 32-bit counter wrapped between the
two timestamps. -/
theorem C10_wraparound_elapsed (p c : Nat) (g : Globals) (r : SensorReading)
    (hpc : p ≤ c) (hlt : c - p < UINT32_MOD)
    (hstate : g.currentState = .WAIT)
    (hprev : g.previousMillis = p % UINT32_MOD) :
    usub32 c g.previousMillis = c - p ∧
    ((loopStep g c r).1.currentState = .READ_SENSOR ↔
      sensorReadInterval ≤ c - p) := by
  have he : usub32 c g.previousMillis = c - p := by
    rw [hprev, usub32_mod_right]
    exact usub32_exact c p hpc hlt
  refine ⟨he, ?_⟩
  rw [loopStep_wait g c r hstate]
  simp only [ge_iff_le, he]
  by_cases hw : sensorReadInterval ≤ c - p
  · simp [hw]
  · simp [hw, hstate]

/-- Witness for C10: a wait spanning the 32-bit wraparound. The marker
was recorded at true time 2^32 - 100 (stored as 4294967196) and the
WAIT tick happens at true time 2^32 + 1900, whose 32-bit counter value
has wrapped to 1900; the unsigned subtraction still yields 2000 and the
machine leaves WAIT. -/
theorem C10_witness :
    usub32 4294969196
      ({ initGlobals with currentState := .WAIT
                        , previousMillis := 4294967196 } : Globals).previousMillis
      = 4294969196 - 4294967196 ∧
    ((loopStep { initGlobals with currentState := .WAIT
                                , previousMillis := 4294967196 }
        4294969196 ⟨.num 0, .num 0⟩).1.currentState = .READ_SENSOR ↔
      sensorReadInterval ≤ 4294969196 - 4294967196) :=
  C10_wraparound_elapsed 4294967196 4294969196
    { initGlobals with currentState := .WAIT, previousMillis := 4294967196 }
    ⟨.num 0, .num 0⟩
    (by omega) (by unfold UINT32_MOD; omega) rfl (by decide)

/-- C5: recovery scenario. A valid (20.0, 50.0) cycle renders the
numeric values; a (NaN, NaN) cycle flips `sensorConnected` to false
and renders the placeholders; a second valid (20.0, 50.0) cycle flips
`sensorConnected` back to true and re-renders the numeric values, even
though they equal the pre-fault values. -/
theorem C5_reconnection_rerenders :
    (fullCycle afterSetup ⟨.num 20, .num 50⟩ 0).2 =
      some { status := "CONNECTED", tempField := .value (.num 20)
           , humField := .value (.num 50) } ∧
    (fullCycle (fullCycle afterSetup ⟨.num 20, .num 50⟩ 0).1
        ⟨.nan, .nan⟩ 2000).1.sensorConnected = false ∧
    (fullCycle (fullCycle afterSetup ⟨.num 20, .num 50⟩ 0).1
        ⟨.nan, .nan⟩ 2000).2 =
      some { status := "DISCONNECTED", tempField := .na, humField := .na } ∧
    (fullCycle (fullCycle (fullCycle afterSetup ⟨.num 20, .num 50⟩ 0).1
        ⟨.nan, .nan⟩ 2000).1 ⟨.num 20, .num 50⟩ 4000).1.sensorConnected = true ∧
    (fullCycle (fullCycle (fullCycle afterSetup ⟨.num 20, .num 50⟩ 0).1
        ⟨.nan, .nan⟩ 2000).1 ⟨.num 20, .num 50⟩ 4000).2 =
      some { status := "CONNECTED", tempField := .value (.num 20)
           , humField := .value (.num 50) } := by
  simp [fullCycle, loopStep, afterSetup, initGlobals, updateDynamicElements,
    FloatVal.fneq, FloatVal.isnan, usub32, sensorReadInterval, UINT32_MOD]

/-- C6: three-reading scenario from the startup state. Readings
(22.5, 45.0), (22.5, 45.0), (23.0, 45.0) produce a display update on
cycle 1, no update on cycle 2, and an update on cycle 3. -/
theorem C6_three_reading_scenario :
    (fullCycle afterSetup ⟨.num 22.5, .num 45⟩ 0).2 =
      some { status := "CONNECTED", tempField := .value (.num 22.5)
           , humField := .value (.num 45) } ∧
    (fullCycle (fullCycle afterSetup ⟨.num 22.5, .num 45⟩ 0).1
        ⟨.num 22.5, .num 45⟩ 2000).2 = none ∧
    (fullCycle (fullCycle (fullCycle afterSetup ⟨.num 22.5, .num 45⟩ 0).1
        ⟨.num 22.5, .num 45⟩ 2000).1 ⟨.num 23, .num 45⟩ 4000).2 =
      some { status := "CONNECTED", tempField := .value (.num 23)
           , humField := .value (.num 45) } := by
  have h1 : ((23 : ℚ) = 22.5) = False := by norm_num
  simp [h1, fullCycle, loopStep, afterSetup, initGlobals,
    updateDynamicElements, FloatVal.fneq, FloatVal.isnan, usub32,
    sensorReadInterval, UINT32_MOD]

/-- C2: along any trace driven by a monotonic millisecond clock whose
growth between ticks stays below 2^32, any two ticks that both execute
the READ_SENSOR state are at least 2000 ms (`sensorReadInterval`)
apart in true time: the machine re-enters READ_SENSOR only through the
WAIT guard, which compares against the timestamp recorded during the
preceding UPDATE_DISPLAY tick. Hence at most one full
READ_SENSOR → UPDATE_DISPLAY → WAIT cycle occurs per 2000 ms window. -/
theorem C2_reads_at_least_interval_apart (g : Globals) (times : Nat → Nat)
    (reads : Nat → SensorReading)
    (hmono : ∀ a b, a ≤ b → times a ≤ times b)
    (hnear : ∀ a b, times b - times a < UINT32_MOD)
    (i j : Nat) (hij : i < j)
    (hi : (runStates g times reads i).currentState = .READ_SENSOR)
    (hj : (runStates g times reads j).currentState = .READ_SENSOR) :
    times i + sensorReadInterval ≤ times j := by
  have hex : ∃ m, i < m ∧ m ≤ j ∧
      (runStates g times reads m).currentState = .READ_SENSOR :=
    ⟨j, hij, le_refl j, hj⟩
  obtain ⟨hm1, hm2, hm3⟩ := Nat.find_spec hex
  have hmmin : ∀ k, k < Nat.find hex → ¬(i < k ∧ k ≤ j ∧
      (runStates g times reads k).currentState = .READ_SENSOR) :=
    fun k hk => Nat.find_min hex hk
  generalize hgen : Nat.find hex = m at hm1 hm2 hm3 hmmin
  have hA : (runStates g times reads (i + 1)).currentState
      = .UPDATE_DISPLAY := by
    rw [runStates_succ, loopStep_read _ _ _ hi]
    split <;> rfl
  have hB1 : (runStates g times reads (i + 2)).currentState = .WAIT := by
    rw [show i + 2 = (i + 1) + 1 from by omega, runStates_succ,
      loopStep_update _ _ _ hA]
  have hB2 : (runStates g times reads (i + 2)).previousMillis
      = times (i + 1) % UINT32_MOD := by
    rw [show i + 2 = (i + 1) + 1 from by omega, runStates_succ,
      loopStep_update _ _ _ hA]
  have hinv : ∀ d, i + 2 + d < m →
      (runStates g times reads (i + 2 + d)).currentState = .WAIT ∧
      (runStates g times reads (i + 2 + d)).previousMillis
        = times (i + 1) % UINT32_MOD := by
    intro d
    induction d with
    | zero =>
        intro _
        rw [show i + 2 + 0 = i + 2 from by omega]
        exact ⟨hB1, hB2⟩
    | succ d ih =>
        intro hlt
        obtain ⟨hw, hp⟩ := ih (by omega)
        have estep : runStates g times reads (i + 2 + (d + 1)) =
            (loopStep (runStates g times reads (i + 2 + d))
              (times (i + 2 + d)) (reads (i + 2 + d))).1 := by
          rw [show i + 2 + (d + 1) = (i + 2 + d) + 1 from by omega,
            runStates_succ]
        by_cases hg : usub32 (times (i + 2 + d))
            ((runStates g times reads (i + 2 + d)).previousMillis)
            ≥ sensorReadInterval
        · exfalso
          have hread : (runStates g times reads
              (i + 2 + (d + 1))).currentState = .READ_SENSOR := by
            rw [estep, loopStep_wait _ _ _ hw]
            simp [hg]
          exact hmmin (i + 2 + (d + 1)) hlt ⟨by omega, by omega, hread⟩
        · rw [estep, loopStep_wait _ _ _ hw]
          simp only [hg, if_false, if_neg]
          exact ⟨hw, hp⟩
  have hge : i + 3 ≤ m := by
    rcases Nat.lt_or_ge m (i + 3) with hlt | hge
    · have : m = i + 1 ∨ m = i + 2 := by omega
      rcases this with h | h
      · rw [h, hA] at hm3
        simp at hm3
      · rw [h, hB1] at hm3
        simp at hm3
    · exact hge
  obtain ⟨n, hn⟩ : ∃ n, m = n + 1 := ⟨m - 1, by omega⟩
  obtain ⟨hw, hp⟩ := hinv (n - (i + 2)) (by omega)
  rw [show i + 2 + (n - (i + 2)) = n from by omega] at hw hp
  have hm3' : (runStates g times reads (n + 1)).currentState
      = .READ_SENSOR := by
    rw [← hn]
    exact hm3
  rw [runStates_succ, loopStep_wait _ _ _ hw] at hm3'
  by_cases hg : usub32 (times n)
      ((runStates g times reads n).previousMillis) ≥ sensorReadInterval
  · rw [hp, usub32_mod_right] at hg
    have hmono1 : times (i + 1) ≤ times n := hmono _ _ (by omega)
    rw [usub32_exact _ _ hmono1 (hnear _ _)] at hg
    have h1 : times i ≤ times (i + 1) := hmono _ _ (by omega)
    have h2 : times n ≤ times j := hmono _ _ (by omega)
    omega
  · exfalso
    simp only [hg, if_false, if_neg] at hm3'
    rw [hw] at hm3'
    simp at hm3'

/-- Witness for C2: with startup state, a clock that advances 2000 ms
per tick (capped so all differences stay below 2^32), and a failing
sensor, tick 0 and tick 3 both execute READ_SENSOR, and their times are
at least 2000 ms apart. -/
theorem C2_witness :
    2000 * min 0 3 + sensorReadInterval ≤ 2000 * min 3 3 :=
  C2_reads_at_least_interval_apart afterSetup (fun k => 2000 * min k 3)
    (fun _ => ⟨.nan, .nan⟩)
    (by intro a b h; show 2000 * min a 3 ≤ 2000 * min b 3; omega)
    (by
      intro a b
      show 2000 * min b 3 - 2000 * min a 3 < UINT32_MOD
      unfold UINT32_MOD
      omega)
    0 3 (by omega) rfl (by decide)
